import Mathlib

/-!
Verification of the vsgExamples repository (two demo executables,
`vsginput` and `vsgraytracing`) against its natural-language specification.

The development shallowly embeds the repository's own logic:
* the `KeyboardInput` event handler of `vsginput.cpp` (text buffer editing
  on key presses, the recompile / release-viewport flags, and the per-frame
  reset performed by the main loop);
* the command-line-to-window-configuration data flow of both `main`s;
* the error-handling paths of both `main`s (parse errors, null window,
  null shaders) as effect traces;
* `createImageView` of `vsgraytracing.cpp` and the resource-setup order of
  the ray-tracing `main`.

Library calls (windowing, Vulkan, scene graph) are external to the
repository; they appear as opaque effect labels in traces, and the few
library behaviours a claim depends on are modelled from the spec and noted
as such in doc comments.
-/

namespace VsgExamples

/-! ### Key symbol constants

Values of the `vsg::KeySymbol` enumerators used by `vsginput.cpp`; the
enumeration follows the X11 keysym encoding. -/

def KEY_BackSpace : Nat := 0xFF08

def KEY_Return : Nat := 0xFF0D

def KEY_Shift_L : Nat := 0xFFE1

def KEY_Hyper_R : Nat := 0xFFEE

/-! ### KeyboardInput state and key-press handling -/

/-- The mutable state of the `KeyboardInput` handler that the key-press
logic touches: the text buffer held by `_keyboardInputText` and the two
flags `_shouldRecompile` and `_shouldReleaseViewport`. -/
structure KeyboardState where
  text : List Char
  shouldRecompile : Bool
  shouldReleaseViewport : Bool
deriving DecidableEq, Repr

/-- The fields of `vsg::KeyPressEvent` read by
`KeyboardInput::apply(vsg::KeyPressEvent&)`: the unmodified key symbol and
the modified character. -/
structure KeyPressEvent where
  keyBase : Nat
  keyModified : Char
deriving DecidableEq, Repr

/-- Embedding of `KeyboardInput::apply(vsg::KeyPressEvent&)`
(`vsginput.cpp` lines 71-96):
modifier keys (keyBase in `[KEY_Shift_L, KEY_Hyper_R]`) return immediately;
backspace is a no-op on an empty buffer and otherwise truncates via
`substr(0, size()-1)` and sets the recompile flag; return appends a newline
and sets the flag; any other key appends `keyModified` and sets the flag. -/
def applyKeyPress (s : KeyboardState) (keyPress : KeyPressEvent) : KeyboardState :=
  if KEY_Shift_L ≤ keyPress.keyBase ∧ keyPress.keyBase ≤ KEY_Hyper_R then
    s
  else if keyPress.keyBase = KEY_BackSpace then
    if s.text.length = 0 then
      s
    else
      ⟨s.text.take (s.text.length - 1), true, s.shouldReleaseViewport⟩
  else if keyPress.keyBase = KEY_Return then
    ⟨s.text ++ ['\n'], true, s.shouldReleaseViewport⟩
  else
    ⟨s.text ++ [keyPress.keyModified], true, s.shouldReleaseViewport⟩

/-- The events the `KeyboardInput` visitor handles: key presses and window
reconfigure events (other events fall through to the default visitor, which
leaves the handler state untouched). -/
inductive InputEvent : Type where
  | keyPress (keyBase : Nat) (keyModified : Char)
  | configureWindow (width height : Nat)
deriving DecidableEq, Repr

/-- Embedding of event dispatch to `KeyboardInput`:
`apply(vsg::KeyPressEvent&)` is `applyKeyPress`, and
`apply(vsg::ConfigureWindowEvent&)` (`vsginput.cpp` lines 49-69) updates
the camera and text position (outside the modelled state) and sets both
`_shouldRecompile` and `_shouldReleaseViewport`. -/
def applyEvent (s : KeyboardState) : InputEvent → KeyboardState
  | .keyPress kb km => applyKeyPress s ⟨kb, km⟩
  | .configureWindow _ _ => ⟨s.text, true, true⟩

/-- `viewer->handleEvents()`: every event of the frame is passed to the
handler in order. -/
def handleEvents (s : KeyboardState) (events : List InputEvent) : KeyboardState :=
  events.foldl applyEvent s

/-- The frame-loop operations of `vsginput.cpp`'s `main` (lines 183-197)
that the recompile workaround is about. -/
inductive FrameOp : Type where
  | releasePipeline
  | compileViewer
  | populateNextFrame
  | submitNextFrame
deriving DecidableEq, Repr

/-- Embedding of `KeyboardInput::reset()` (`vsginput.cpp` lines 100-109):
clears `_shouldRecompile`; if `_shouldReleaseViewport` is set, releases the
graphics pipeline implementation and clears that flag too. Returns the new
state together with the operations performed. -/
def KeyboardInput_reset (s : KeyboardState) : KeyboardState × List FrameOp :=
  let s1 : KeyboardState := ⟨s.text, false, s.shouldReleaseViewport⟩
  if s1.shouldReleaseViewport then
    (⟨s1.text, s1.shouldRecompile, false⟩, [FrameOp.releasePipeline])
  else
    (s1, [])

/-- One iteration of the main frame loop of `vsginput.cpp` (lines 183-197)
after `advanceToNextFrame`: handle the frame's events; if the handler's
recompile flag is set, reset the handler and recompile the viewer; then
populate and submit the next frame. Returns the handler state at the frame
boundary and the ordered trace of operations. -/
def frameBody (s : KeyboardState) (events : List InputEvent) :
    KeyboardState × List FrameOp :=
  let s1 := handleEvents s events
  if s1.shouldRecompile then
    let r := KeyboardInput_reset s1
    (r.1, r.2 ++ [FrameOp.compileViewer, FrameOp.populateNextFrame, FrameOp.submitNextFrame])
  else
    (s1, [FrameOp.populateNextFrame, FrameOp.submitNextFrame])

/-! ### Vulkan constants used by the embedded code -/

def VK_IMAGE_LAYOUT_UNDEFINED : Nat := 0

def VK_IMAGE_LAYOUT_GENERAL : Nat := 1

/-! ### Command-line to window-configuration data flow -/

/-- The values produced by the argument-parsing preamble shared by both
`main`s: `arguments.read({"--debug","-d"})`, `arguments.read({"--api","-a"})`
and the `--window`/`-w` width/height pair (with its per-executable
default already applied). -/
structure CommandLineValues where
  debugLayer : Bool
  apiDumpLayer : Bool
  width : Nat
  height : Nat
deriving DecidableEq, Repr

/-- The fields of `vsg::Window::Traits` assigned by `vsginput.cpp`'s `main`
(lines 147-150): width and height from the parsed pair (the present-mode
preference is a fixed enum constant, not CLI-dependent). -/
structure InputWindowTraits where
  width : Nat
  height : Nat
deriving DecidableEq, Repr

/-- The full argument tuple `vsginput.cpp` passes to `vsg::Window::create`
(line 152): the traits plus the parsed debug-layer and API-dump-layer
toggles, passed as the second and third arguments. -/
structure InputWindowConfig where
  traits : InputWindowTraits
  debugLayer : Bool
  apiDumpLayer : Bool
deriving DecidableEq, Repr

/-- The window configuration `vsginput.cpp`'s `main` builds from the
parsed command-line values (lines 147-152). -/
def vsginput_windowConfig (cli : CommandLineValues) : InputWindowConfig :=
  ⟨⟨cli.width, cli.height⟩, cli.debugLayer, cli.apiDumpLayer⟩

/-- The fields of `vsg::Window::Traits` assigned by `vsgraytracing.cpp`'s
`main` (lines 59-64). -/
structure RayWindowTraits where
  windowTitle : String
  debugLayer : Bool
  apiDumpLayer : Bool
  width : Nat
  height : Nat
deriving DecidableEq, Repr

/-- The window traits `vsgraytracing.cpp`'s `main` builds (lines 59-64):
the title is fixed, `debugLayer` is assigned the literal `true` and
`apiDumpLayer` the literal `false`, and width/height come from the parsed
`--window` pair. -/
def vsgraytracing_windowTraits (cli : CommandLineValues) : RayWindowTraits :=
  ⟨"vsgraytracing", true, false, cli.width, cli.height⟩

/-! ### Effect traces of the two `main`s -/

/-- The externally visible operations of the two `main`s that the
error-handling and setup-order claims are about, in the roles they play in
the source. -/
inductive MainOp : Type where
  | writeErrorsToStderr
  | createWindow
  | printWindowMessage
  | loadShaders
  | printShaderMessage
  | createImage
  | getMemoryRequirements
  | reserveMemory
  | printMemoryWarning
  | bindImageMemory
  | createImgView
  | createDescriptorSetLayout
  | createRayTracingPipeline
  | createDescriptorSet
  | recordBindCommands
  | compileViewer
  | enterFrameLoop
deriving DecidableEq, Repr

/-- The fields of `vsg::ImageData` relevant to `createImageView`: the
sampler slot (always null here), the image view handle and the image
layout. Handles are modelled as `Option Nat`, with `none` a null pointer. -/
structure ImageData where
  sampler : Option Nat
  imageView : Option Nat
  imageLayout : Nat
deriving DecidableEq, Repr

/-- Modelled from the spec: a default-constructed `vsg::ImageData` (what
`return vsg::ImageData();` yields, library code not in this repository)
carries null handles and the undefined image layout. -/
def ImageData.defaultConstructed : ImageData :=
  ⟨none, none, VK_IMAGE_LAYOUT_UNDEFINED⟩

/-- Embedding of `createImageView` (`vsgraytracing.cpp` lines 4-30). The
outcome of the library call `reserveMemory` is a parameter (`none` models
a null `DeviceMemory` handle). On reservation failure the function prints
a warning and returns a default-constructed `ImageData`, binding no memory
and creating no view; otherwise it binds the reserved memory at the given
offset, creates the image view (a non-null handle, modelled `some 1`) and
returns it with the requested target image layout and a null sampler. -/
def createImageView (reservedMemory : Option Nat) (offset : Nat)
    (targetImageLayout : Nat) : ImageData × List MainOp :=
  match reservedMemory with
  | none =>
    (ImageData.defaultConstructed,
     [MainOp.createImage, MainOp.getMemoryRequirements, MainOp.reserveMemory,
      MainOp.printMemoryWarning])
  | some _ =>
    (⟨none, some 1, targetImageLayout⟩,
     [MainOp.createImage, MainOp.getMemoryRequirements, MainOp.reserveMemory,
      MainOp.bindImageMemory, MainOp.createImgView])

/-- Modelled from the spec: `vsg::CommandLine::writeErrorMessages` (library
code) writes the parse error messages to the stream it is given — standard
error at both call sites — and returns a nonzero value, which `main`
returns as its exit status. -/
def writeErrorMessagesResult : Int := 1

/-- The outcomes of the fallible library calls that `vsginput.cpp`'s
`main` branches on. -/
structure VsginputEnv where
  cliErrors : Bool
  windowOk : Bool
deriving DecidableEq, Repr

/-- Embedding of `vsginput.cpp`'s `main` (lines 121-204) as exit status
plus ordered effect trace: parse errors are reported and returned before
any window is created; a null window prints a message and returns 1 before
the frame loop; otherwise the viewer compiles and the frame loop runs. -/
def vsginput_main (env : VsginputEnv) : Int × List MainOp :=
  if env.cliErrors then
    (writeErrorMessagesResult, [MainOp.writeErrorsToStderr])
  else if !env.windowOk then
    (1, [MainOp.createWindow, MainOp.printWindowMessage])
  else
    (0, [MainOp.createWindow, MainOp.compileViewer, MainOp.enterFrameLoop])

/-- The outcomes of the fallible library calls that `vsgraytracing.cpp`'s
`main` branches on: argument parsing, window creation, the three shader
stage loads, and the device-memory reservation inside `createImageView`. -/
structure VsgraytracingEnv where
  cliErrors : Bool
  windowOk : Bool
  raygenOk : Bool
  missOk : Bool
  closesthitOk : Bool
  reservedMemory : Option Nat
  memoryOffset : Nat
deriving DecidableEq, Repr

/-- Embedding of `vsgraytracing.cpp`'s `main` (lines 44-259) as exit
status plus ordered effect trace, following the source order: parse-error
check, window creation and its null check, shader loading and its null
check, then the resource setup — `createImageView` for the storage image
(image creation, memory binding), descriptor set layout, ray-tracing
pipeline, descriptor set, recording of the bind commands into the command
scene graph — then viewer compile and the frame loop. -/
def vsgraytracing_main (env : VsgraytracingEnv) : Int × List MainOp :=
  if env.cliErrors then
    (writeErrorMessagesResult, [MainOp.writeErrorsToStderr])
  else if !env.windowOk then
    (1, [MainOp.createWindow, MainOp.printWindowMessage])
  else if !(env.raygenOk && env.missOk && env.closesthitOk) then
    (1, [MainOp.createWindow, MainOp.loadShaders, MainOp.printShaderMessage])
  else
    let r := createImageView env.reservedMemory env.memoryOffset VK_IMAGE_LAYOUT_GENERAL
    (0, [MainOp.createWindow, MainOp.loadShaders] ++ r.2 ++
        [MainOp.createDescriptorSetLayout, MainOp.createRayTracingPipeline,
         MainOp.createDescriptorSet, MainOp.recordBindCommands,
         MainOp.compileViewer, MainOp.enterFrameLoop])

end VsgExamples

namespace VsgExamples

/-- C1: a backspace press on an empty buffer is a no-op (whole state
unchanged, in particular the recompile flag is not newly set), and on a
non-empty buffer replaces the text with its length-one-less front part,
removing exactly the last character, while setting the recompile flag. -/
theorem backspace_truncates_one (s : KeyboardState) (e : KeyPressEvent)
    (h : e.keyBase = KEY_BackSpace) :
    (s.text = [] → applyKeyPress s e = s) ∧
    (s.text ≠ [] →
      (applyKeyPress s e).text = s.text.take (s.text.length - 1) ∧
      (∃ c, s.text = (applyKeyPress s e).text ++ [c]) ∧
      (applyKeyPress s e).shouldRecompile = true ∧
      (applyKeyPress s e).shouldReleaseViewport = s.shouldReleaseViewport) := by
  have hmod : ¬ (KEY_Shift_L ≤ e.keyBase ∧ e.keyBase ≤ KEY_Hyper_R) := by
    rw [h]; decide
  constructor
  · intro hempty
    simp [applyKeyPress, hmod, h, hempty]
  · intro hne
    have hlen : s.text.length ≠ 0 := by
      simpa using hne
    have happ : applyKeyPress s e =
        ⟨s.text.take (s.text.length - 1), true, s.shouldReleaseViewport⟩ := by
      simp only [applyKeyPress, h]
      rw [if_neg (by decide), if_pos trivial, if_neg hlen]
    refine ⟨by rw [happ], ⟨s.text.getLast hne, ?_⟩, by rw [happ], by rw [happ]⟩
    rw [happ]
    have := List.dropLast_append_getLast hne
    simpa [List.dropLast_eq_take] using this.symm

/-- Witness for `backspace_truncates_one` at the buffer `"ab"`. -/
theorem backspace_truncates_one_witness :
    (applyKeyPress ⟨['a', 'b'], false, false⟩ ⟨KEY_BackSpace, ' '⟩).text =
      (['a', 'b'] : List Char).take 1 :=
  ((backspace_truncates_one ⟨['a', 'b'], false, false⟩ ⟨KEY_BackSpace, ' '⟩ rfl).2
    (by decide)).1

/-- C2: a key press that is neither backspace, nor return, nor in the
modifier range appends exactly the event's `keyModified` character to the
buffer, leaving the earlier characters unchanged (the result is the old
buffer followed by that one character), and sets the recompile flag. -/
theorem plain_key_appends_keyModified (s : KeyboardState) (e : KeyPressEvent)
    (hb : e.keyBase ≠ KEY_BackSpace) (hr : e.keyBase ≠ KEY_Return)
    (hm : ¬ (KEY_Shift_L ≤ e.keyBase ∧ e.keyBase ≤ KEY_Hyper_R)) :
    applyKeyPress s e = ⟨s.text ++ [e.keyModified], true, s.shouldReleaseViewport⟩ := by
  simp only [applyKeyPress]
  rw [if_neg hm, if_neg hb, if_neg hr]

/-- Witness for `plain_key_appends_keyModified` at the letter key `a`. -/
theorem plain_key_appends_keyModified_witness :
    applyKeyPress ⟨['h', 'i'], false, true⟩ ⟨0x61, 'a'⟩ =
      ⟨['h', 'i'] ++ ['a'], true, true⟩ :=
  plain_key_appends_keyModified ⟨['h', 'i'], false, true⟩ ⟨0x61, 'a'⟩
    (by decide) (by decide) (by decide)

/-- C3: a return key press replaces the buffer with the old buffer followed
by exactly one newline character (and sets the recompile flag). -/
theorem return_appends_newline (s : KeyboardState) (e : KeyPressEvent)
    (h : e.keyBase = KEY_Return) :
    applyKeyPress s e = ⟨s.text ++ ['\n'], true, s.shouldReleaseViewport⟩ := by
  simp only [applyKeyPress, h]
  rw [if_neg (by decide), if_neg (by decide), if_pos trivial]

/-- Witness for `return_appends_newline` on the buffer `"ok"`. -/
theorem return_appends_newline_witness :
    applyKeyPress ⟨['o', 'k'], false, false⟩ ⟨KEY_Return, '\r'⟩ =
      ⟨['o', 'k'] ++ ['\n'], true, false⟩ :=
  return_appends_newline ⟨['o', 'k'], false, false⟩ ⟨KEY_Return, '\r'⟩ rfl

/-- C9: a key press whose keyBase lies in the modifier range from
`KEY_Shift_L` to `KEY_Hyper_R` inclusive returns immediately: the whole
handler state (text buffer, recompile flag, release-viewport flag) is
unchanged. -/
theorem modifier_key_is_noop (s : KeyboardState) (e : KeyPressEvent)
    (hlo : KEY_Shift_L ≤ e.keyBase) (hhi : e.keyBase ≤ KEY_Hyper_R) :
    applyKeyPress s e = s := by
  simp only [applyKeyPress]
  rw [if_pos ⟨hlo, hhi⟩]

/-- Witness for `modifier_key_is_noop` at the left-control key. -/
theorem modifier_key_is_noop_witness :
    applyKeyPress ⟨['x'], true, false⟩ ⟨0xFFE3, ' '⟩ = ⟨['x'], true, false⟩ :=
  modifier_key_is_noop ⟨['x'], true, false⟩ ⟨0xFFE3, ' '⟩ (by decide) (by decide)

/-- C7: (1) every key press that changes the text buffer sets the recompile
flag; (2) a window reconfigure sets both the recompile and release-viewport
flags; (3) whenever the recompile flag is set after event handling, the
frame performs a viewer recompile strictly before populating the next
frame, and the pipeline release happens exactly when the release-viewport
flag was set (i.e. a reconfigure occurred); (4) the recompile flag is never
left set at a frame boundary. -/
theorem recompile_flag_discipline :
    (∀ s e, (applyKeyPress s e).text ≠ s.text →
      (applyKeyPress s e).shouldRecompile = true) ∧
    (∀ s w h, (applyEvent s (InputEvent.configureWindow w h)).shouldRecompile = true ∧
      (applyEvent s (InputEvent.configureWindow w h)).shouldReleaseViewport = true) ∧
    (∀ s events, (handleEvents s events).shouldRecompile = true →
      FrameOp.compileViewer ∈ (frameBody s events).2 ∧
      (frameBody s events).2.indexOf FrameOp.compileViewer <
        (frameBody s events).2.indexOf FrameOp.populateNextFrame ∧
      (FrameOp.releasePipeline ∈ (frameBody s events).2 ↔
        (handleEvents s events).shouldReleaseViewport = true)) ∧
    (∀ s events, (frameBody s events).1.shouldRecompile = false) := by
  refine ⟨?_, ?_, ?_, ?_⟩
  · intro s e hchange
    by_cases hm : KEY_Shift_L ≤ e.keyBase ∧ e.keyBase ≤ KEY_Hyper_R
    · simp [applyKeyPress, hm] at hchange
    · by_cases hb : e.keyBase = KEY_BackSpace
      · by_cases hlen : s.text.length = 0
        · simp [applyKeyPress, hm, hb, hlen] at hchange
        · have happ : applyKeyPress s e =
              ⟨s.text.take (s.text.length - 1), true, s.shouldReleaseViewport⟩ := by
            simp only [applyKeyPress, hb]
            rw [if_neg (by decide), if_pos trivial, if_neg hlen]
          rw [happ]
      · by_cases hr : e.keyBase = KEY_Return
        · have happ : applyKeyPress s e =
              ⟨s.text ++ ['\n'], true, s.shouldReleaseViewport⟩ := by
            simp only [applyKeyPress, hr]
            rw [if_neg (by decide), if_neg (by decide), if_pos trivial]
          rw [happ]
        · have happ : applyKeyPress s e =
              ⟨s.text ++ [e.keyModified], true, s.shouldReleaseViewport⟩ := by
            simp only [applyKeyPress]
            rw [if_neg hm, if_neg hb, if_neg hr]
          rw [happ]
  · intro s w h
    exact ⟨rfl, rfl⟩
  · intro s events hrec
    by_cases hrel : (handleEvents s events).shouldReleaseViewport = true
    · simp [frameBody, KeyboardInput_reset, hrec, hrel, List.indexOf]
      decide
    · simp [frameBody, KeyboardInput_reset, hrec, hrel, List.indexOf]
      decide
  · intro s events
    by_cases hrec : (handleEvents s events).shouldRecompile = true
    · by_cases hrel : (handleEvents s events).shouldReleaseViewport = true
      · simp [frameBody, KeyboardInput_reset, hrec, hrel]
      · simp [frameBody, KeyboardInput_reset, hrec, hrel]
    · simp only [frameBody]
      rw [if_neg hrec]
      exact Bool.not_eq_true _ ▸ (Bool.of_not_eq_true hrec)

/-- Witness for `recompile_flag_discipline`: after typing the letter `a`
into an empty buffer, the frame recompiles before populating. -/
theorem recompile_flag_discipline_witness :
    FrameOp.compileViewer ∈ (frameBody ⟨[], false, false⟩ [InputEvent.keyPress 0x61 'a']).2 :=
  (recompile_flag_discipline.2.2.1 ⟨[], false, false⟩
    [InputEvent.keyPress 0x61 'a'] (by decide)).1

/-- C4 as stated is false: in the ray-tracing executable the parsed
debug-layer and API-dump-layer toggles are not passed into the window
traits — `debugLayer` is hardcoded `true` and `apiDumpLayer` hardcoded
`false` (`vsgraytracing.cpp` lines 61-62). At the concrete parse result
(debug off, API dump on, 1280x720) the traits disagree with both
toggles. -/
theorem cli_passthrough_counterexample :
    ¬ ((vsgraytracing_windowTraits ⟨false, true, 1280, 720⟩).debugLayer = false ∧
       (vsgraytracing_windowTraits ⟨false, true, 1280, 720⟩).apiDumpLayer = true) := by
  decide

/-- C4 amended: in `vsginput` all four parsed values are passed unchanged
into the window configuration (width and height into the traits, the two
layer toggles as the further arguments of `vsg::Window::create`); in
`vsgraytracing` only width and height are passed through, while the
debug layer is always enabled and the API-dump layer always disabled,
regardless of the parsed toggles. -/
theorem cli_passthrough_amended (cli : CommandLineValues) :
    (vsginput_windowConfig cli).traits.width = cli.width ∧
    (vsginput_windowConfig cli).traits.height = cli.height ∧
    (vsginput_windowConfig cli).debugLayer = cli.debugLayer ∧
    (vsginput_windowConfig cli).apiDumpLayer = cli.apiDumpLayer ∧
    (vsgraytracing_windowTraits cli).width = cli.width ∧
    (vsgraytracing_windowTraits cli).height = cli.height ∧
    (vsgraytracing_windowTraits cli).debugLayer = true ∧
    (vsgraytracing_windowTraits cli).apiDumpLayer = false :=
  ⟨rfl, rfl, rfl, rfl, rfl, rfl, rfl, rfl⟩

/-- C5: on command-line parse errors both `main`s write the error messages
to standard error and return a nonzero exit status; their whole effect
trace is that single write, so no window is created and the frame loop is
never entered. -/
theorem parse_errors_exit_nonzero (e1 : VsginputEnv) (e2 : VsgraytracingEnv)
    (h1 : e1.cliErrors = true) (h2 : e2.cliErrors = true) :
    ((vsginput_main e1).1 ≠ 0 ∧
     (vsginput_main e1).2 = [MainOp.writeErrorsToStderr] ∧
     MainOp.createWindow ∉ (vsginput_main e1).2 ∧
     MainOp.enterFrameLoop ∉ (vsginput_main e1).2) ∧
    ((vsgraytracing_main e2).1 ≠ 0 ∧
     (vsgraytracing_main e2).2 = [MainOp.writeErrorsToStderr] ∧
     MainOp.createWindow ∉ (vsgraytracing_main e2).2 ∧
     MainOp.enterFrameLoop ∉ (vsgraytracing_main e2).2) := by
  simp [vsginput_main, vsgraytracing_main, h1, h2, writeErrorMessagesResult]

/-- Witness for `parse_errors_exit_nonzero` at environments whose argument
parsing failed. -/
theorem parse_errors_exit_nonzero_witness :
    (vsginput_main ⟨true, true⟩).1 ≠ 0 ∧
    (vsgraytracing_main ⟨true, true, true, true, true, some 1, 0⟩).1 ≠ 0 :=
  have h := parse_errors_exit_nonzero ⟨true, true⟩
    ⟨true, true, true, true, true, some 1, 0⟩ rfl rfl
  ⟨h.1.1, h.2.1⟩

/-- C6: a null window makes either `main` print a message and return
status exactly 1, and in the ray-tracing executable a failure of any of
the three shader stages does the same; in each case the effect trace ends
at the message, so the frame loop is never entered. -/
theorem null_window_or_shader_exit_one :
    (∀ env : VsginputEnv, env.cliErrors = false → env.windowOk = false →
      vsginput_main env = (1, [MainOp.createWindow, MainOp.printWindowMessage])) ∧
    (∀ env : VsgraytracingEnv, env.cliErrors = false → env.windowOk = false →
      vsgraytracing_main env = (1, [MainOp.createWindow, MainOp.printWindowMessage])) ∧
    (∀ env : VsgraytracingEnv, env.cliErrors = false → env.windowOk = true →
      (env.raygenOk && env.missOk && env.closesthitOk) = false →
      vsgraytracing_main env =
        (1, [MainOp.createWindow, MainOp.loadShaders, MainOp.printShaderMessage])) := by
  refine ⟨?_, ?_, ?_⟩
  · intro env h1 h2
    simp [vsginput_main, h1, h2]
  · intro env h1 h2
    simp [vsgraytracing_main, h1, h2]
  · intro env h1 h2 h3
    simp [vsgraytracing_main, h1, h2, h3]

/-- Witness for `null_window_or_shader_exit_one`: a failed window in
`vsginput` and a failed miss shader in `vsgraytracing`. -/
theorem null_window_or_shader_exit_one_witness :
    vsginput_main ⟨false, false⟩ =
      (1, [MainOp.createWindow, MainOp.printWindowMessage]) ∧
    vsgraytracing_main ⟨false, true, true, false, true, some 1, 0⟩ =
      (1, [MainOp.createWindow, MainOp.loadShaders, MainOp.printShaderMessage]) :=
  ⟨null_window_or_shader_exit_one.1 ⟨false, false⟩ rfl rfl,
   null_window_or_shader_exit_one.2.2 ⟨false, true, true, false, true, some 1, 0⟩
     rfl rfl (by decide)⟩

/-- C8: on the successful path (arguments parse, window and all three
shaders load, device-memory reservation succeeds) the six resource-setup
operations each occur exactly once in the trace of the ray-tracing `main`,
and in the claimed order — storage image creation, memory binding to that
image, descriptor set layout, ray-tracing pipeline, descriptor set,
recording of the bind commands — each strictly before the next (they form
a sublist of the trace). -/
theorem raytracing_setup_order (env : VsgraytracingEnv)
    (h1 : env.cliErrors = false) (h2 : env.windowOk = true)
    (h3 : env.raygenOk = true) (h4 : env.missOk = true)
    (h5 : env.closesthitOk = true) (m : Nat) (h6 : env.reservedMemory = some m) :
    ([MainOp.createImage, MainOp.bindImageMemory, MainOp.createDescriptorSetLayout,
      MainOp.createRayTracingPipeline, MainOp.createDescriptorSet,
      MainOp.recordBindCommands].Sublist (vsgraytracing_main env).2) ∧
    (vsgraytracing_main env).2.count MainOp.createImage = 1 ∧
    (vsgraytracing_main env).2.count MainOp.bindImageMemory = 1 ∧
    (vsgraytracing_main env).2.count MainOp.createDescriptorSetLayout = 1 ∧
    (vsgraytracing_main env).2.count MainOp.createRayTracingPipeline = 1 ∧
    (vsgraytracing_main env).2.count MainOp.createDescriptorSet = 1 ∧
    (vsgraytracing_main env).2.count MainOp.recordBindCommands = 1 := by
  have htr : (vsgraytracing_main env).2 =
      [MainOp.createWindow, MainOp.loadShaders, MainOp.createImage,
       MainOp.getMemoryRequirements, MainOp.reserveMemory, MainOp.bindImageMemory,
       MainOp.createImgView, MainOp.createDescriptorSetLayout,
       MainOp.createRayTracingPipeline, MainOp.createDescriptorSet,
       MainOp.recordBindCommands, MainOp.compileViewer, MainOp.enterFrameLoop] := by
    simp [vsgraytracing_main, createImageView, h1, h2, h3, h4, h5, h6]
  rw [htr]
  refine ⟨?_, by decide, by decide, by decide, by decide, by decide, by decide⟩
  decide

/-- Witness for `raytracing_setup_order` at an all-successful
environment. -/
theorem raytracing_setup_order_witness :
    [MainOp.createImage, MainOp.bindImageMemory, MainOp.createDescriptorSetLayout,
     MainOp.createRayTracingPipeline, MainOp.createDescriptorSet,
     MainOp.recordBindCommands].Sublist
      (vsgraytracing_main ⟨false, true, true, true, true, some 1, 0⟩).2 :=
  (raytracing_setup_order ⟨false, true, true, true, true, some 1, 0⟩
    rfl rfl rfl rfl rfl 1 rfl).1

/-- C10: `createImageView` returns a default-constructed (empty)
`ImageData`, after printing a warning and without binding memory or
creating an image view, exactly when the reserved device-memory handle is
null; otherwise it returns an `ImageData` carrying a non-null image view
and the requested target image layout, having bound the memory. -/
theorem createImageView_spec (reservedMemory : Option Nat) (offset layout : Nat) :
    (((createImageView reservedMemory offset layout).1 = ImageData.defaultConstructed ∧
      MainOp.printMemoryWarning ∈ (createImageView reservedMemory offset layout).2 ∧
      MainOp.bindImageMemory ∉ (createImageView reservedMemory offset layout).2 ∧
      MainOp.createImgView ∉ (createImageView reservedMemory offset layout).2) ↔
      reservedMemory = none) ∧
    (reservedMemory ≠ none →
      (createImageView reservedMemory offset layout).1.imageView.isSome = true ∧
      (createImageView reservedMemory offset layout).1.imageLayout = layout ∧
      MainOp.bindImageMemory ∈ (createImageView reservedMemory offset layout).2) := by
  cases reservedMemory <;>
    simp [createImageView, ImageData.defaultConstructed]

/-- Witness for `createImageView_spec` at a successful memory
reservation. -/
theorem createImageView_spec_witness :
    (createImageView (some 7) 4 VK_IMAGE_LAYOUT_GENERAL).1.imageView.isSome = true ∧
    (createImageView (some 7) 4 VK_IMAGE_LAYOUT_GENERAL).1.imageLayout =
      VK_IMAGE_LAYOUT_GENERAL :=
  have h := (createImageView_spec (some 7) 4 VK_IMAGE_LAYOUT_GENERAL).2 (by decide)
  ⟨h.1, h.2.1⟩

end VsgExamples
